import Mathlib

/-!
Shallow embedding of the authentication and authorization layer of the
TaskDesk backend (internal/api/middleware/auth.go), together with theorems
settling the specification claims about it.

Conventions of the embedding:
* Go strings are Lean `String`s; the byte-level Go string functions
  (strings.HasPrefix, strings.TrimPrefix, strings.EqualFold) are modelled
  over `String.data` (their character lists), which agrees with the Go
  byte-level semantics on valid UTF-8 input.
* Time is a `Nat` (seconds); `time.Since(t) > TTL` becomes
  `cacheTime + TTL < now`.
* The process-global JWKS cache (jwksCache, jwksCacheTime) is threaded as
  an explicit `JWKSCache` value; a Go `map[string]*ecdsa.PublicKey` is an
  association list with overwrite-on-insert (`mapSet`), so lookups behave
  exactly like Go map indexing.
* External collaborators are inputs: a remote JWKS fetch outcome is an
  `Except String (List jwkKey)` (error = network/JSON failure, ok = the
  decoded key list), and the registrations-table lookup is a function
  `String → Except DBErr (String × String)`.
* The golang-jwt/v5 library call `jwt.Parse(tokenString, keyfunc)` is
  modelled by `jwtParse`: the compact decoding of the raw string is an
  abstract function `String → Option Token`; for a decoded token, Parse
  consults the keyfunc, verifies the signature (an oracle field `sigOK`
  on the token, since real cryptography is not embedded) and validates
  the registered claims (the default v5 validator rejects a token whose
  exp claim is in the past; a missing exp is not an error).
-/

deriving instance DecidableEq for Except

namespace TaskDesk

/-- Configuration fields used by the middleware (internal/config). -/
structure Config where
  supabaseURL : String
  supabaseJWTSecret : String
deriving DecidableEq

/-- An ECDSA public key as built by fetchJWKS: `new(big.Int).SetBytes` of the
decoded coordinate bytes (big-endian natural numbers). The curve is always
P-256 and is omitted. -/
structure PublicKey where
  x : Nat
  y : Nat
deriving DecidableEq

/-- One entry of the JWKS document (struct jwkKey in auth.go). -/
structure jwkKey where
  kty : String
  kid : String
  crv : String
  x : String
  y : String
deriving DecidableEq

/-- The global JWKS cache state: `jwksCache` (nil vs a map) and
`jwksCacheTime`. -/
structure JWKSCache where
  cache : Option (List (String × PublicKey))
  cacheTime : Nat
deriving DecidableEq

/-- jwksCacheTTL = 1 hour, in seconds. -/
def jwksCacheTTL : Nat := 3600

/-- Value of one character in the URL-safe base64 alphabet used by Go's
base64.RawURLEncoding, or none for a character outside the alphabet. -/
def b64Val (c : Char) : Option Nat :=
  if 65 ≤ c.toNat ∧ c.toNat ≤ 90 then some (c.toNat - 65)
  else if 97 ≤ c.toNat ∧ c.toNat ≤ 122 then some (c.toNat - 97 + 26)
  else if 48 ≤ c.toNat ∧ c.toNat ≤ 57 then some (c.toNat - 48 + 52)
  else if c = '-' then some 62
  else if c = '_' then some 63
  else none

/-- Turn a list of sextet values into bytes, as Go's unpadded base64
decoder does: groups of four sextets give three bytes; a final group of
two or three sextets gives one or two bytes (unused low bits dropped,
Go's non-strict mode); a final group of one sextet is a decode error. -/
def b64DecodeVals : List Nat → Option (List Nat)
  | [] => some []
  | a :: b :: c :: d :: rest =>
      (b64DecodeVals rest).map
        (fun bs => (a * 4 + b / 16) :: (b % 16 * 16 + c / 4) :: (c % 4 * 64 + d) :: bs)
  | [_] => none
  | [a, b] => some [a * 4 + b / 16]
  | [a, b, c] => some [a * 4 + b / 16, b % 16 * 16 + c / 4]

/-- Model of Go base64.RawURLEncoding.DecodeString: newline characters are
ignored, every other character must be in the URL-safe alphabet, and the
sextets are packed into bytes. Returns none exactly when Go returns a
CorruptInputError. -/
def b64uDecode (s : String) : Option (List Nat) :=
  ((s.data.filter (fun c => !(c = '\r' || c = '\n'))).mapM b64Val).bind b64DecodeVals

/-- big.Int.SetBytes: big-endian interpretation of a byte list. -/
def bytesToNat (bs : List Nat) : Nat :=
  bs.foldl (fun a b => a * 256 + b) 0

/-- Go map assignment `m[k] = v` on an association-list representation:
any previous binding of k is removed and the new one appended. -/
def mapSet (m : List (String × PublicKey)) (k : String) (v : PublicKey) :
    List (String × PublicKey) :=
  m.filter (fun p => p.1 ≠ k) ++ [(k, v)]

/-- One iteration of the key-building loop of fetchJWKS: skip the entry
unless kty is EC and crv is P-256, skip it if either coordinate fails
base64url decoding, otherwise store the key under its kid. -/
def processKey (m : List (String × PublicKey)) (k : jwkKey) :
    List (String × PublicKey) :=
  if k.kty ≠ "EC" ∨ k.crv ≠ "P-256" then m
  else
    match b64uDecode k.x with
    | none => m
    | some xBytes =>
      match b64uDecode k.y with
      | none => m
      | some yBytes => mapSet m k.kid ⟨bytesToNat xBytes, bytesToNat yBytes⟩

/-- The keys map built by fetchJWKS from a decoded JWKS document. -/
def buildKeys (ks : List jwkKey) : List (String × PublicKey) :=
  ks.foldl processKey []

/-- fetchJWKS: on a fetch or JSON-decode failure the error is returned and
the cache state is untouched; on success the cache mapping and timestamp
are replaced wholesale. `resp` is the outcome of the HTTP GET plus JSON
decoding of the JWKS document. -/
def fetchJWKS (st : JWKSCache) (now : Nat) (resp : Except String (List jwkKey)) :
    Except String JWKSCache :=
  match resp with
  | .error e => .error e
  | .ok ks => .ok { cache := some (buildKeys ks), cacheTime := now }

/-- getPublicKey: serve from the cache when it exists, is within its TTL
and holds the kid; otherwise refresh via fetchJWKS (propagating its error)
and look the kid up in the refreshed cache. Returns the key together with
the (possibly updated) cache state. -/
def getPublicKey (st : JWKSCache) (now : Nat) (resp : Except String (List jwkKey))
    (kid : String) : Except String (PublicKey × JWKSCache) :=
  let needsRefresh := st.cache.isNone || decide (st.cacheTime + jwksCacheTTL < now)
  let cachedHit : Option PublicKey :=
    if needsRefresh then none
    else (st.cache.getD []).lookup kid
  match cachedHit with
  | some key => .ok (key, st)
  | none =>
    match fetchJWKS st now resp with
    | .error e => .error e
    | .ok st' =>
      match (st'.cache.getD []).lookup kid with
      | some key => .ok (key, st')
      | none => .error ("key ID " ++ kid ++ " not found in JWKS")

/-- The signing method declared by a token, as dispatched on by the
keyfunc: the ECDSA family, the HMAC family, or any other method
(e.g. RSA, EdDSA, none). -/
inductive SigningMethod where
  | ecdsa
  | hmac
  | other (alg : String)

/-- A JSON claim value: a string, a (timestamp) number, or anything else. -/
inductive ClaimValue where
  | str (s : String)
  | num (n : Nat)
  | otherJSON
deriving DecidableEq

/-- A key as returned by the keyfunc: the shared HMAC secret bytes or an
ECDSA public key. -/
inductive VerifyKey where
  | secret (s : String)
  | pub (k : PublicKey)
deriving DecidableEq

/-- A decoded (not yet verified) JWT: the declared signing method, the
kid header value when it is a string, the claim map, and a signature
oracle saying against which keys the token signature verifies (actual
cryptography is not embedded). -/
structure Token where
  method : SigningMethod
  kid : Option String
  claims : List (String × ClaimValue)
  sigOK : VerifyKey → Bool

/-- The keyfunc passed to jwt.Parse by AuthMiddleware: ECDSA tokens need a
non-empty kid and resolve it through getPublicKey; HMAC tokens use the
configured Supabase JWT secret; any other method is rejected. Returns the
key and the possibly refreshed cache state. -/
def keyfunc (cfg : Config) (st : JWKSCache) (now : Nat)
    (resp : Except String (List jwkKey)) (tok : Token) :
    Except String (VerifyKey × JWKSCache) :=
  match tok.method with
  | .ecdsa =>
    let kid := tok.kid.getD ""
    if kid = "" then .error "missing kid in token header"
    else
      match getPublicKey st now resp kid with
      | .error e => .error e
      | .ok (key, st') => .ok (.pub key, st')
  | .hmac => .ok (.secret cfg.supabaseJWTSecret, st)
  | .other alg => .error ("unexpected signing method: " ++ alg)

/-- Go `v, _ := claims[k].(string)`: the claim value when it is a string,
and the zero value "" when it is absent or not a string. -/
def getStringClaim (claims : List (String × ClaimValue)) (k : String) : String :=
  match claims.lookup k with
  | some (.str s) => s
  | _ => ""

/-- The default golang-jwt/v5 registered-claims validation restricted to
what this token population carries: a numeric exp claim in the past fails
validation, a missing exp claim is accepted, a non-numeric exp claim is an
invalid-claims error. -/
def expirationOK (claims : List (String × ClaimValue)) (now : Nat) : Bool :=
  match claims.lookup "exp" with
  | none => true
  | some (.num e) => decide (now ≤ e)
  | some _ => false

/-- Model of jwt.Parse on an already compact-decoded token: obtain the key
from the keyfunc (its error fails the parse), verify the signature with
it, then validate the claims. On success the claim map and the updated
cache state are returned. -/
def jwtParse (cfg : Config) (st : JWKSCache) (now : Nat)
    (resp : Except String (List jwkKey)) (tok : Token) :
    Except String (List (String × ClaimValue) × JWKSCache) :=
  match keyfunc cfg st now resp tok with
  | .error e => .error e
  | .ok (key, st') =>
    if !tok.sigOK key then .error "token signature is invalid"
    else if !expirationOK tok.claims now then .error "token has invalid claims"
    else .ok (tok.claims, st')

/-- UserContext as stored in the Gin context by AuthMiddleware. -/
structure UserContext where
  supabaseUserID : String
  email : String
  registrationID : String
  role : String
deriving DecidableEq

/-- Outcome of the registrations-table lookup: pgx distinguishes a
no-rows result from an infrastructure failure (both are non-nil errors
to the Scan caller). -/
inductive DBErr where
  | noRows
  | failure (msg : String)
deriving DecidableEq

/-- Outcome of AuthMiddleware for one request: an aborted 401 response
with its error message, or the handler chain continuing with the stored
UserContext (and the cache state after any refresh). -/
inductive AuthOutcome where
  | unauthorized (msg : String)
  | okNext (user : UserContext) (st : JWKSCache)
deriving DecidableEq

/-- strings.HasPrefix. -/
def hasPre (s p : String) : Bool :=
  p.data.isPrefixOf s.data

/-- strings.TrimPrefix for a 7-character matched head ("Bearer "). -/
def dropChars (s : String) (n : Nat) : String :=
  ⟨s.data.drop n⟩

/-- AuthMiddleware: reject a missing or non-Bearer Authorization header;
compact-decode and verify the token (`decode` models the JWT
base64/JSON decoding of the raw string, `resp` the remote JWKS fetch,
`dbLookup` the registrations query returning (id, role)); require a
non-empty email claim; map any lookup error to the User-not-registered
response; otherwise store the UserContext and continue. -/
def AuthMiddleware (cfg : Config) (st : JWKSCache) (now : Nat)
    (resp : Except String (List jwkKey))
    (dbLookup : String → Except DBErr (String × String))
    (decode : String → Option Token)
    (authHeader : String) : AuthOutcome :=
  if authHeader = "" ∨ !hasPre authHeader "Bearer " then
    .unauthorized "Missing or invalid authorization header"
  else
    let tokenString := dropChars authHeader 7
    match decode tokenString with
    | none => .unauthorized "Invalid or expired token"
    | some tok =>
      match jwtParse cfg st now resp tok with
      | .error _ => .unauthorized "Invalid or expired token"
      | .ok (claims, st') =>
        let supabaseUserID := getStringClaim claims "sub"
        let email := getStringClaim claims "email"
        if email = "" then .unauthorized "Token missing email claim"
        else
          match dbLookup email with
          | .error _ => .unauthorized "User not registered"
          | .ok (rid, role) => .okNext ⟨supabaseUserID, email, rid, role⟩ st'

/-- A value stored in the Gin context under the user key: the expected
pointer to a UserContext, or a value of some other type. -/
inductive CtxValue where
  | user (u : UserContext)
  | otherVal
deriving DecidableEq

/-- GetUser: nil when the key is absent or the stored value is not a
UserContext pointer. -/
def GetUser (v : Option CtxValue) : Option UserContext :=
  match v with
  | some (.user u) => some u
  | _ => none

/-- ASCII simple case folding of one character code, as performed by
strings.EqualFold on ASCII input (all role strings in this system are
ASCII). -/
def foldOrd (c : Char) : Nat :=
  if 65 ≤ c.toNat ∧ c.toNat ≤ 90 then c.toNat + 32 else c.toNat

/-- strings.EqualFold (restricted to ASCII case folding). -/
def equalFold (a b : String) : Bool :=
  a.data.map foldOrd == b.data.map foldOrd

/-- Outcome of RequireRole: continue to the handler, abort with 403, or
abort with 401. -/
inductive RoleOutcome where
  | next
  | forbidden (msg : String)
  | unauthorized (msg : String)
deriving DecidableEq

/-- RequireRole: 401 when no authenticated user is in the context; then
the first allowed role equal (case-insensitively) to the user's role lets
the request through; otherwise 403 naming the allowed roles. -/
def RequireRole (allowedRoles : List String) (v : Option CtxValue) : RoleOutcome :=
  match GetUser v with
  | none => .unauthorized "Authentication required"
  | some user =>
    match allowedRoles.find? (fun role => equalFold user.role role) with
    | some _ => .next
    | none =>
      .forbidden ("Insufficient permissions. Required role: "
        ++ String.intercalate " or " allowedRoles)

/-- An entry of the JWKS document that fetchJWKS turns into a cached key:
right type and curve, and both coordinates decode. -/
def passesFilter (k : jwkKey) : Bool :=
  k.kty = "EC" && k.crv = "P-256" && (b64uDecode k.x).isSome && (b64uDecode k.y).isSome

/-- The public key built from a passing JWKS entry. -/
def mkKey (k : jwkKey) : PublicKey :=
  ⟨bytesToNat ((b64uDecode k.x).getD []), bytesToNat ((b64uDecode k.y).getD [])⟩

/-- Looking a key up after a Go map assignment: the new binding wins for
its own kid and every other kid is unaffected. -/
theorem lookup_mapSet (m : List (String × PublicKey)) (kid kid2 : String)
    (v : PublicKey) :
    List.lookup kid2 (mapSet m kid v) =
      if kid2 = kid then some v else List.lookup kid2 m := by
  induction m with
  | nil =>
    by_cases h : kid2 = kid
    · simp [mapSet, List.lookup, h]
    · have hb : (kid2 == kid) = false := by simp [h]
      simp [mapSet, List.lookup, h, hb]
  | cons p t ih =>
    obtain ⟨a, b⟩ := p
    by_cases hak : a = kid
    · have hdrop : mapSet ((a, b) :: t) kid v = mapSet t kid v := by
        simp [mapSet, hak]
      rw [hdrop, ih]
      by_cases h2 : kid2 = kid
      · simp [h2]
      · have h2a : (kid2 == a) = false := by simp [hak ▸ h2]
        simp [h2, List.lookup, h2a]
    · have hkeep : mapSet ((a, b) :: t) kid v = (a, b) :: mapSet t kid v := by
        simp [mapSet, hak]
      rw [hkeep]
      by_cases h2a : kid2 = a
      · subst h2a
        simp [List.lookup, if_neg hak]
      · have hb : (kid2 == a) = false := by simp [h2a]
        simp [List.lookup, hb, ih]

/-- Looking a key up after one loop iteration of fetchJWKS: a passing
entry with the right kid contributes its key, anything else leaves the
map unchanged for that kid. -/
theorem lookup_processKey (m : List (String × PublicKey)) (k : jwkKey)
    (kid : String) :
    List.lookup kid (processKey m k) =
      if passesFilter k && k.kid == kid then some (mkKey k)
      else List.lookup kid m := by
  unfold processKey passesFilter
  by_cases hty : k.kty = "EC" ∧ k.crv = "P-256"
  · obtain ⟨h1, h2⟩ := hty
    rw [if_neg (by simp [h1, h2])]
    cases hx : b64uDecode k.x with
    | none => simp [hx]
    | some xb =>
      cases hy : b64uDecode k.y with
      | none => simp [hx, hy]
      | some yb =>
        rw [lookup_mapSet]
        simp only [h1, h2, hx, hy, Option.isSome_some, decide_True, Bool.and_true,
          Bool.true_and, mkKey, Option.getD_some]
        by_cases hk : kid = k.kid
        · simp [hk]
        · rw [if_neg hk, if_neg (by simp [Ne.symm hk])]
  · rw [if_pos (by tauto)]
    rw [if_neg (by simp only [Bool.and_eq_true, decide_eq_true_eq]; tauto)]

/-- Looking a kid up in the map built by the fetchJWKS loop from any
starting map: the last passing entry with that kid wins; if there is
none, the starting map answers. -/
theorem lookup_foldl_processKey (kid : String) :
    ∀ (ks : List jwkKey) (m : List (String × PublicKey)),
      List.lookup kid (ks.foldl processKey m) =
        match List.find? (fun k => passesFilter k && k.kid == kid) ks.reverse with
        | some k => some (mkKey k)
        | none => List.lookup kid m := by
  intro ks
  induction ks with
  | nil => intro m; rfl
  | cons k t ih =>
    intro m
    rw [List.foldl_cons, ih (processKey m k), List.reverse_cons, List.find?_append]
    cases hf : List.find? (fun j => passesFilter j && j.kid == kid) t.reverse with
    | some j => simp [Option.or]
    | none =>
      simp only [Option.or_none, Option.none_or]
      rw [lookup_processKey]
      cases hp : (passesFilter k && k.kid == kid) with
      | true => simp [List.find?, hp]
      | false => simp [List.find?, hp]

/-- Claim C1 counterexample: RequireRole with an empty allowed-roles set
rejects an authenticated identity (role PM) with 403 Forbidden instead of
authorizing it. -/
theorem c1_counterexample :
    RequireRole [] (some (.user ⟨"u1", "a@x.com", "r1", "PM"⟩)) =
      .forbidden "Insufficient permissions. Required role: " := by
  decide

/-- Claim C1, amended: for every authenticated identity, RequireRole with
an empty allowed-roles set responds 403 Forbidden (the role loop has no
candidate to match, so the forbidden branch always runs); an empty set
means deny-all, not authenticated-only. -/
theorem c1_empty_roles_always_forbidden (u : UserContext) :
    RequireRole [] (some (.user u)) =
      .forbidden "Insufficient permissions. Required role: " :=
  rfl

/-- Claim C7: for a present identity and a non-empty allowed set,
RequireRole lets the request through exactly when some allowed role equals
the identity's role case-insensitively; concretely, role pm passes against
allowed set PM and role Developer is forbidden against allowed set PM. -/
theorem c7_role_check_case_insensitive (u : UserContext) (roles : List String)
    (hne : roles ≠ []) :
    (RequireRole roles (some (.user u)) = .next ↔
      ∃ r ∈ roles, equalFold u.role r = true) ∧
    RequireRole ["PM"] (some (.user ⟨"u1", "a@x.com", "r1", "pm"⟩)) = .next ∧
    RequireRole ["PM"] (some (.user ⟨"u1", "a@x.com", "r1", "Developer"⟩)) =
      .forbidden "Insufficient permissions. Required role: PM" := by
  refine ⟨?_, by decide, by decide⟩
  clear hne
  unfold RequireRole GetUser
  cases hf : roles.find? (fun role => equalFold u.role role) with
  | some r =>
    simp only [hf]
    constructor
    · intro _
      exact ⟨r, List.mem_of_find?_eq_some hf, List.find?_some hf⟩
    · intro _; trivial
  | none =>
    simp only [hf]
    constructor
    · intro h; cases h
    · rintro ⟨r, hr, hfold⟩
      have := List.find?_eq_none.mp hf r hr
      simp [hfold] at this

/-- Claim C7 witness: the theorem applied at identity role pm against the
allowed set containing only PM. -/
theorem c7_witness :
    RequireRole ["PM"] (some (.user ⟨"u1", "a@x.com", "r1", "pm"⟩)) = .next :=
  (c7_role_check_case_insensitive ⟨"u1", "a@x.com", "r1", "pm"⟩ ["PM"]
    (by decide)).2.1

/-- Claim C8: authorization fails closed — whenever GetUser finds no
UserContext in the request context (key absent, or a value of another
type stored), RequireRole aborts with 401 and never continues to the
handler, for every allowed-roles set. -/
theorem c8_fails_closed (roles : List String) (v : Option CtxValue)
    (h : GetUser v = none) :
    RequireRole roles v = .unauthorized "Authentication required" ∧
    RequireRole roles v ≠ .next := by
  unfold RequireRole
  rw [h]
  exact ⟨rfl, by simp⟩

/-- Claim C8 witness: the theorem applied to an absent context value and
to a context value of the wrong type. -/
theorem c8_witness :
    RequireRole ["PM"] none = .unauthorized "Authentication required" ∧
    RequireRole [] (some .otherVal) = .unauthorized "Authentication required" :=
  ⟨(c8_fails_closed ["PM"] none rfl).1,
   (c8_fails_closed [] (some .otherVal) rfl).1⟩

/-- Claim C3 counterexample: a cache generation holding kid k1 whose TTL
has expired (fetched at 0, asked at 4000 with a 3600-second TTL) does not
shield the caller from a failing refresh — getPublicKey surfaces the
fetch error instead of returning the stale cached key. -/
theorem c3_counterexample :
    getPublicKey ⟨some [("k1", ⟨1, 2⟩)], 0⟩ 4000 (.error "connection refused")
      "k1" = .error "connection refused" := by
  decide

/-- Claim C3, amended: a cached key is returned without any fetch only
while the cache exists and its TTL has not expired; once the cache is
empty or the TTL has expired, a failing refresh surfaces the fetch error
to the caller even if the requested kid is present in the previous
(stale) cache generation — the stale mapping is left untouched but never
served. -/
theorem c3_stale_cache_not_served :
    (∀ (st : JWKSCache) (now : Nat) (resp : Except String (List jwkKey))
        (kid : String) (key : PublicKey),
      st.cache.isNone = false →
      ¬ (st.cacheTime + jwksCacheTTL < now) →
      (st.cache.getD []).lookup kid = some key →
      getPublicKey st now resp kid = .ok (key, st)) ∧
    (∀ (st : JWKSCache) (now : Nat) (e : String) (kid : String),
      st.cache.isNone = true ∨ st.cacheTime + jwksCacheTTL < now →
      getPublicKey st now (.error e) kid = .error e) := by
  constructor
  · intro st now resp kid key hsome httl hhit
    unfold getPublicKey
    simp [hsome, httl, hhit]
  · intro st now e kid href
    unfold getPublicKey
    have : (st.cache.isNone || decide (st.cacheTime + jwksCacheTTL < now)) = true := by
      rcases href with h | h <;> simp [h]
    simp [this, fetchJWKS]

/-- Claim C3 witness for the amended theorem: within the TTL the cached
key for k1 is served even though the fetch would fail; past the TTL the
same state surfaces the fetch failure. -/
theorem c3_witness :
    getPublicKey ⟨some [("k1", ⟨1, 2⟩)], 0⟩ 100 (.error "down") "k1" =
      .ok (⟨1, 2⟩, ⟨some [("k1", ⟨1, 2⟩)], 0⟩) ∧
    getPublicKey ⟨some [("k1", ⟨1, 2⟩)], 0⟩ 4000 (.error "down") "k1" =
      .error "down" :=
  ⟨c3_stale_cache_not_served.1 ⟨some [("k1", ⟨1, 2⟩)], 0⟩ 100 (.error "down")
      "k1" ⟨1, 2⟩ rfl (by decide) rfl,
   c3_stale_cache_not_served.2 ⟨some [("k1", ⟨1, 2⟩)], 0⟩ 4000 "down" "k1"
      (Or.inr (by decide))⟩

/-- Claim C9: a successful refresh replaces the cache state wholesale
(the new mapping and timestamp are computed from the fetched document
alone, so nothing of the previous generation survives), and a kid maps in
the new cache exactly to the key of the last fetched entry that has kty
EC, crv P-256, that kid, and both coordinates decoding from URL-safe
base64 — entries failing the filter or the decode are skipped without
affecting any other entry and without failing the refresh. -/
theorem c9_refresh_replaces_wholesale (st : JWKSCache) (now : Nat)
    (ks : List jwkKey) (kid : String) :
    fetchJWKS st now (.ok ks) =
      .ok { cache := some (buildKeys ks), cacheTime := now } ∧
    List.lookup kid (buildKeys ks) =
      (List.find? (fun k => passesFilter k && k.kid == kid) ks.reverse).map mkKey := by
  refine ⟨rfl, ?_⟩
  unfold buildKeys
  rw [lookup_foldl_processKey]
  cases List.find? (fun k => passesFilter k && k.kid == kid) ks.reverse <;> rfl

/-- A header that does start with the Bearer marker falsifies the
rejection guard of AuthMiddleware. -/
theorem bearer_guard_false {authHeader : String}
    (hok : hasPre authHeader "Bearer " = true) :
    ¬(authHeader = "" ∨ (!hasPre authHeader "Bearer ") = true) := by
  rintro (h | h)
  · subst h
    exact absurd hok (by decide)
  · rw [hok] at h
    simp at h

/-- Claim C10: any request whose Authorization header is empty or does
not start with the exact prefix Bearer-space is rejected 401 before the
token is decoded, before any key fetch and before any database lookup —
the outcome is the same for every decode function, fetch outcome and
database function. -/
theorem c10_header_guard_rejects_first (cfg : Config) (st : JWKSCache) (now : Nat)
    (resp : Except String (List jwkKey))
    (dbLookup : String → Except DBErr (String × String))
    (decode : String → Option Token) (authHeader : String)
    (h : authHeader = "" ∨ hasPre authHeader "Bearer " = false) :
    AuthMiddleware cfg st now resp dbLookup decode authHeader =
      .unauthorized "Missing or invalid authorization header" := by
  unfold AuthMiddleware
  rw [if_pos]
  rcases h with h | h
  · exact Or.inl h
  · exact Or.inr (by simp [h])

/-- Claim C10 witness: the theorem applied to the lowercase header
bearer abc (case-sensitivity of the prefix match), with a decode
function, fetch outcome and database function that would all succeed. -/
theorem c10_witness :
    AuthMiddleware ⟨"https://sb", "s"⟩ ⟨some [("k1", ⟨1, 2⟩)], 0⟩ 10
      (.ok [⟨"EC", "k1", "P-256", "AQ", "Ag"⟩])
      (fun _ => .ok ("r1", "PM"))
      (fun _ => some ⟨.hmac, none, [("email", .str "a@x.com")],
        fun k => k == .secret "s"⟩)
      "bearer abc" = .unauthorized "Missing or invalid authorization header" :=
  c10_header_guard_rejects_first _ _ _ _ _ _ "bearer abc" (Or.inr (by decide))

/-- Claim C2: a token declaring any signing method other than the HMAC
and ECDSA families makes the keyfunc fail, so jwt.Parse fails and the
request is rejected 401 — for every configured secret and every cache
content, fetch outcome and database function. -/
theorem c2_unknown_algorithm_rejected (cfg : Config) (st : JWKSCache) (now : Nat)
    (resp : Except String (List jwkKey))
    (dbLookup : String → Except DBErr (String × String))
    (decode : String → Option Token) (authHeader : String) (tok : Token)
    (s : String)
    (hok : hasPre authHeader "Bearer " = true)
    (hdec : decode (dropChars authHeader 7) = some tok)
    (hm : tok.method = .other s) :
    jwtParse cfg st now resp tok = .error ("unexpected signing method: " ++ s) ∧
    AuthMiddleware cfg st now resp dbLookup decode authHeader =
      .unauthorized "Invalid or expired token" := by
  have hj : jwtParse cfg st now resp tok =
      .error ("unexpected signing method: " ++ s) := by
    unfold jwtParse keyfunc
    rw [hm]
  refine ⟨hj, ?_⟩
  unfold AuthMiddleware
  rw [if_neg (bearer_guard_false hok)]
  simp only [hdec, hj]

/-- Claim C2 witness: a token declaring alg none, whose signature oracle
would accept any key, presented while the cache holds a valid key and the
shared secret is configured — still rejected. -/
theorem c2_witness :
    AuthMiddleware ⟨"https://sb", "secret"⟩ ⟨some [("k1", ⟨1, 2⟩)], 0⟩ 10
      (.ok [⟨"EC", "k1", "P-256", "AQ", "Ag"⟩])
      (fun _ => .ok ("r1", "PM"))
      (fun _ => some ⟨.other "none", some "k1", [("email", .str "a@x.com")],
        fun _ => true⟩)
      "Bearer t" = .unauthorized "Invalid or expired token" :=
  (c2_unknown_algorithm_rejected _ _ _ _ _ _ "Bearer t"
    ⟨.other "none", some "k1", [("email", .str "a@x.com")], fun _ => true⟩
    "none" (by decide) rfl rfl).2

/-- Claim C5: a token whose exp claim is in the past fails validation and
the request is rejected 401, even though the keyfunc produced a key and
the signature verifies against it. -/
theorem c5_expired_token_rejected (cfg : Config) (st : JWKSCache) (now : Nat)
    (resp : Except String (List jwkKey))
    (dbLookup : String → Except DBErr (String × String))
    (decode : String → Option Token) (authHeader : String) (tok : Token)
    (key : VerifyKey) (st2 : JWKSCache) (e : Nat)
    (hok : hasPre authHeader "Bearer " = true)
    (hdec : decode (dropChars authHeader 7) = some tok)
    (hkey : keyfunc cfg st now resp tok = .ok (key, st2))
    (hsig : tok.sigOK key = true)
    (hexp : tok.claims.lookup "exp" = some (.num e))
    (hpast : e < now) :
    jwtParse cfg st now resp tok = .error "token has invalid claims" ∧
    AuthMiddleware cfg st now resp dbLookup decode authHeader =
      .unauthorized "Invalid or expired token" := by
  have hexpok : expirationOK tok.claims now = false := by
    unfold expirationOK
    rw [hexp]
    simp [Nat.not_le.mpr hpast]
  have hj : jwtParse cfg st now resp tok = .error "token has invalid claims" := by
    unfold jwtParse
    rw [hkey]
    simp [hsig, hexpok]
  refine ⟨hj, ?_⟩
  unfold AuthMiddleware
  rw [if_neg (bearer_guard_false hok)]
  simp only [hdec, hj]

/-- Claim C5 witness: an HMAC token with exp 20 verified at time 30 whose
signature matches the configured secret — still rejected. -/
theorem c5_witness :
    AuthMiddleware ⟨"https://sb", "s"⟩ ⟨none, 0⟩ 30 (.error "jwks down")
      (fun _ => .ok ("r1", "PM"))
      (fun _ => some ⟨.hmac, none,
        [("email", .str "a@x.com"), ("exp", .num 20)],
        fun k => k == .secret "s"⟩)
      "Bearer t" = .unauthorized "Invalid or expired token" :=
  (c5_expired_token_rejected ⟨"https://sb", "s"⟩ ⟨none, 0⟩ 30 (.error "jwks down")
    (fun _ => .ok ("r1", "PM"))
    (fun _ => some ⟨.hmac, none,
      [("email", .str "a@x.com"), ("exp", .num 20)],
      fun k => k == .secret "s"⟩)
    "Bearer t"
    ⟨.hmac, none, [("email", .str "a@x.com"), ("exp", .num 20)],
      fun k => k == .secret "s"⟩
    (.secret "s") ⟨none, 0⟩ 20 (by decide) rfl rfl (by decide) (by decide)
    (by decide)).2

/-- Claim C6: after a successful parse, a missing, empty or non-string
email claim aborts the request 401 with the missing-email message; with a
non-empty email the pipeline proceeds to the lookup and, on success, the
stored UserContext carries the sub claim as extracted (the empty string
when sub is absent — sub absence never fails verification). -/
theorem c6_email_required_sub_carried (cfg : Config) (st : JWKSCache) (now : Nat)
    (resp : Except String (List jwkKey))
    (dbLookup : String → Except DBErr (String × String))
    (decode : String → Option Token) (authHeader : String) (tok : Token)
    (claims2 : List (String × ClaimValue)) (st2 : JWKSCache) (rid role : String)
    (hok : hasPre authHeader "Bearer " = true)
    (hdec : decode (dropChars authHeader 7) = some tok)
    (hjwt : jwtParse cfg st now resp tok = .ok (claims2, st2)) :
    (claims2.lookup "email" = none →
      AuthMiddleware cfg st now resp dbLookup decode authHeader =
        .unauthorized "Token missing email claim") ∧
    (claims2.lookup "email" = some (.str "") →
      AuthMiddleware cfg st now resp dbLookup decode authHeader =
        .unauthorized "Token missing email claim") ∧
    (∀ n, claims2.lookup "email" = some (.num n) →
      AuthMiddleware cfg st now resp dbLookup decode authHeader =
        .unauthorized "Token missing email claim") ∧
    (claims2.lookup "email" = some .otherJSON →
      AuthMiddleware cfg st now resp dbLookup decode authHeader =
        .unauthorized "Token missing email claim") ∧
    (getStringClaim claims2 "email" ≠ "" →
      dbLookup (getStringClaim claims2 "email") = .ok (rid, role) →
      AuthMiddleware cfg st now resp dbLookup decode authHeader =
        .okNext ⟨getStringClaim claims2 "sub", getStringClaim claims2 "email",
          rid, role⟩ st2) := by
  have hmid : AuthMiddleware cfg st now resp dbLookup decode authHeader =
      (if getStringClaim claims2 "email" = "" then
        AuthOutcome.unauthorized "Token missing email claim"
      else
        match dbLookup (getStringClaim claims2 "email") with
        | .error _ => .unauthorized "User not registered"
        | .ok (rid, role) =>
          .okNext ⟨getStringClaim claims2 "sub", getStringClaim claims2 "email",
            rid, role⟩ st2) := by
    unfold AuthMiddleware
    rw [if_neg (bearer_guard_false hok)]
    simp only [hdec, hjwt]
  refine ⟨?_, ?_, ?_, ?_, ?_⟩
  · intro h
    rw [hmid, if_pos (by unfold getStringClaim; rw [h])]
  · intro h
    rw [hmid, if_pos (by unfold getStringClaim; rw [h])]
  · intro n h
    rw [hmid, if_pos (by unfold getStringClaim; rw [h])]
  · intro h
    rw [hmid, if_pos (by unfold getStringClaim; rw [h])]
  · intro hne hdb
    rw [hmid, if_neg hne, hdb]

/-- Claim C6 witness: the theorem applied to a token with only a sub
claim (rejected for the missing email) and to a token with only an email
claim (accepted, with the empty string carried as the sub field). -/
theorem c6_witness :
    AuthMiddleware ⟨"https://sb", "s"⟩ ⟨none, 0⟩ 10 (.error "jwks down")
      (fun _ => .ok ("r1", "PM"))
      (fun _ => some ⟨.hmac, none, [("sub", .str "u1")],
        fun k => k == .secret "s"⟩)
      "Bearer t" = .unauthorized "Token missing email claim" ∧
    AuthMiddleware ⟨"https://sb", "s"⟩ ⟨none, 0⟩ 10 (.error "jwks down")
      (fun _ => .ok ("r1", "PM"))
      (fun _ => some ⟨.hmac, none, [("email", .str "a@x.com")],
        fun k => k == .secret "s"⟩)
      "Bearer t" = .okNext ⟨"", "a@x.com", "r1", "PM"⟩ ⟨none, 0⟩ :=
  ⟨(c6_email_required_sub_carried _ _ 10 _ _ _ "Bearer t"
      ⟨.hmac, none, [("sub", .str "u1")], fun k => k == .secret "s"⟩
      [("sub", .str "u1")] ⟨none, 0⟩ "r1" "PM"
      (by decide) rfl (by decide)).1 (by decide),
   (c6_email_required_sub_carried _ _ 10 _ _ _ "Bearer t"
      ⟨.hmac, none, [("email", .str "a@x.com")], fun k => k == .secret "s"⟩
      [("email", .str "a@x.com")] ⟨none, 0⟩ "r1" "PM"
      (by decide) rfl (by decide)).2.2.2.2 (by decide) (by decide)⟩

/-- Claim C4 counterexample: a registrations lookup that fails for an
infrastructure reason (connection refused) produces the same 401
User-not-registered response as a no-row result — the middleware does not
classify infrastructure failures differently. -/
theorem c4_counterexample :
    AuthMiddleware ⟨"https://sb", "s"⟩ ⟨none, 0⟩ 10 (.error "jwks down")
      (fun _ => .error (.failure "connection refused"))
      (fun _ => some ⟨.hmac, none, [("email", .str "a@x.com")],
        fun k => k == .secret "s"⟩)
      "Bearer t" = .unauthorized "User not registered" := by
  decide

/-- Claim C4, amended: every error from the registrations lookup — the
no-row case and any infrastructure failure alike — yields the same 401
User-not-registered response; the middleware inspects only whether the
lookup errored, never which error it was. -/
theorem c4_db_errors_conflated (cfg : Config) (st : JWKSCache) (now : Nat)
    (resp : Except String (List jwkKey)) (decode : String → Option Token)
    (authHeader : String) (tok : Token)
    (claims2 : List (String × ClaimValue)) (st2 : JWKSCache) (dbe : DBErr)
    (hok : hasPre authHeader "Bearer " = true)
    (hdec : decode (dropChars authHeader 7) = some tok)
    (hjwt : jwtParse cfg st now resp tok = .ok (claims2, st2))
    (hemail : getStringClaim claims2 "email" ≠ "") :
    AuthMiddleware cfg st now resp (fun _ => .error dbe) decode authHeader =
      .unauthorized "User not registered" := by
  unfold AuthMiddleware
  rw [if_neg (bearer_guard_false hok)]
  simp only [hdec, hjwt]
  rw [if_neg hemail]

/-- Claim C4 witness for the amended theorem: the theorem applied to the
no-row error and to a connection failure, both yielding the same
response. -/
theorem c4_witness :
    AuthMiddleware ⟨"https://sb", "s"⟩ ⟨none, 0⟩ 10 (.error "jwks down")
      (fun _ => .error .noRows)
      (fun _ => some ⟨.hmac, none, [("email", .str "a@x.com")],
        fun k => k == .secret "s"⟩)
      "Bearer t" = .unauthorized "User not registered" ∧
    AuthMiddleware ⟨"https://sb", "s"⟩ ⟨none, 0⟩ 10 (.error "jwks down")
      (fun _ => .error (.failure "timeout"))
      (fun _ => some ⟨.hmac, none, [("email", .str "a@x.com")],
        fun k => k == .secret "s"⟩)
      "Bearer t" = .unauthorized "User not registered" :=
  ⟨c4_db_errors_conflated _ _ 10 _ _ "Bearer t"
      ⟨.hmac, none, [("email", .str "a@x.com")], fun k => k == .secret "s"⟩
      [("email", .str "a@x.com")] ⟨none, 0⟩ .noRows
      (by decide) rfl (by decide) (by decide),
   c4_db_errors_conflated _ _ 10 _ _ "Bearer t"
      ⟨.hmac, none, [("email", .str "a@x.com")], fun k => k == .secret "s"⟩
      [("email", .str "a@x.com")] ⟨none, 0⟩ (.failure "timeout")
      (by decide) rfl (by decide) (by decide)⟩

end TaskDesk
